import Mathlib

/-!
Shallow embedding of the pylibheif binding layer (HeifContext, HeifImageHandle,
HeifImage, HeifEncoder, HeifEncoderDescriptor and the error-translation
chokepoint) together with proofs about the claims made by its specification.

The native libheif library is out of scope and is modelled as an oracle: a
record of functions describing what each native entry point reports back
(counts, buffer contents, error records).  The wrapper code itself is
translated statement by statement from src/src/context.cpp, src/src/image.cpp
and the encoder / module-definition translation units.
-/

namespace Pylibheif

/-- The `heif_error_code` enumeration as exported by the module definition. -/
inductive HeifErrorCode
  | Ok
  | InputDoesNotExist
  | InvalidInput
  | UnsupportedFiletype
  | UnsupportedFeature
  | UsageError
  | MemoryAllocationError
  | DecoderPluginError
  | EncoderPluginError
  | EncodingError
  | ColorProfileDoesNotExist
  deriving DecidableEq, Repr

/-- A native result record `heif_error`: code, subcode (kept numeric) and
message. -/
structure HeifErrorRec where
  code : HeifErrorCode
  subcode : Nat
  message : String
  deriving DecidableEq, Repr

/-- The structured failure type `HeifError` raised into the host: it carries
the native code and subcode and stores the message in its base
`std::runtime_error`. -/
structure HeifError where
  code : HeifErrorCode
  subcode : Nat
  message : String
  deriving DecidableEq, Repr

/-- An exception observable at the host boundary: either the structured
`HeifError` registered with the module, or a plain `std::runtime_error`
(surfacing as the host's RuntimeError). -/
inductive PyException
  | heifError (e : HeifError)
  | runtimeError (msg : String)
  deriving DecidableEq, Repr

/-- `check_error` from the common header: throw a `HeifError` carrying the
record's fields whenever the code is not `Ok`, otherwise do nothing. -/
def check_error (err : HeifErrorRec) : Except PyException Unit :=
  if err.code ≠ HeifErrorCode.Ok then
    Except.error (PyException.heifError ⟨err.code, err.subcode, err.message⟩)
  else
    Except.ok ()

/-- Claim C3: `check_error` raises a structured failure carrying exactly the
record's code, subcode and message if and only if the code is not `Ok`; when
the code is `Ok` it has no observable effect. -/
theorem check_error_translates_iff (err : HeifErrorRec) :
    (err.code ≠ HeifErrorCode.Ok →
      check_error err =
        Except.error (PyException.heifError ⟨err.code, err.subcode, err.message⟩))
    ∧ (err.code = HeifErrorCode.Ok → check_error err = Except.ok ()) := by
  constructor
  · intro h
    simp [check_error, h]
  · intro h
    simp [check_error, h]

/-- Concrete instantiation of `check_error_translates_iff` at a failing and at
a succeeding record. -/
theorem check_error_translates_iff_witness :
    check_error ⟨HeifErrorCode.InvalidInput, 3, "bad stream"⟩ =
      Except.error (PyException.heifError ⟨HeifErrorCode.InvalidInput, 3, "bad stream"⟩)
    ∧ check_error ⟨HeifErrorCode.Ok, 0, "Success"⟩ = Except.ok () :=
  ⟨(check_error_translates_iff ⟨HeifErrorCode.InvalidInput, 3, "bad stream"⟩).1 (by decide),
   (check_error_translates_iff ⟨HeifErrorCode.Ok, 0, "Success"⟩).2 rfl⟩

/-- A byte string crossing the host boundary. -/
abbrev Bytes := List Nat

/-- Which storage the buffer pointer handed to a native call designates: the
Container's own `memory_data` member (`memory_data.data()` in the source) or a
caller-side temporary. -/
inductive BufSource
  | memberStorage
  | callerTemporary
  deriving DecidableEq, Repr

/-- One invocation of `heif_context_read_from_memory_without_copy`: the storage
the pointer refers to and the bytes visible through it at call time. -/
structure MemReadCall where
  source : BufSource
  bytes : Bytes
  deriving DecidableEq, Repr

/-- The mutable state of a `HeifContext` relevant to memory reads: its
`memory_data` member (empty on construction). -/
structure HeifContextState where
  memory_data : Bytes
  deriving DecidableEq, Repr

/-- A freshly constructed `HeifContext`: `memory_data` is an empty string. -/
def freshContext : HeifContextState := ⟨[]⟩

/-- Native oracle for `HeifContext::read_from_memory`: the error record
`heif_context_read_from_memory_without_copy` reports for a given buffer. -/
structure MemNativeEnv where
  readResult : Bytes → HeifErrorRec

/-- Outcome of one `read_from_memory` call: the exception raised (if any), the
Container state after the call, and the native calls made during it. -/
structure ReadFromMemoryOutcome where
  error : Option PyException
  state : HeifContextState
  nativeCalls : List MemReadCall
  deriving DecidableEq, Repr

/-- `HeifContext::read_from_memory` translated from src/src/context.cpp: if
`memory_data` is non-empty, throw `std::runtime_error("Context already
initialized with memory data")` before any native call; otherwise assign the
input bytes to `memory_data`, then call the non-copying native read with a
pointer into that member storage, routing its result through `check_error`. -/
def read_from_memory (env : MemNativeEnv) (st : HeifContextState) (data : Bytes) :
    ReadFromMemoryOutcome :=
  if st.memory_data.isEmpty = false then
    { error := some (PyException.runtimeError "Context already initialized with memory data"),
      state := st,
      nativeCalls := [] }
  else
    let st' : HeifContextState := { st with memory_data := data }
    let call : MemReadCall := { source := BufSource.memberStorage, bytes := st'.memory_data }
    match check_error (env.readResult st'.memory_data) with
    | Except.ok _ => { error := none, state := st', nativeCalls := [call] }
    | Except.error e => { error := some e, state := st', nativeCalls := [call] }

/-- Recognise the failure shape asserted by the specification for a repeated
memory read: a structured `HeifError` whose code is `UsageError`. -/
def isUsageHeifError : Option PyException → Bool
  | some (PyException.heifError ⟨HeifErrorCode.UsageError, _, _⟩) => true
  | _ => false

/-- A memory-read oracle whose native read always succeeds. -/
def memEnvOk : MemNativeEnv :=
  ⟨fun _ => ⟨HeifErrorCode.Ok, 0, "Success"⟩⟩

/-- Claim C1 as stated is false at a concrete input, twice over: after a first
call storing `[1]`, the second call fails with the layer-local RuntimeError
`"Context already initialized with memory data"`, not with a structured
`UsageError`; and after a first call storing the empty byte string, a second
call does not fail at all — it is forwarded to the native layer. -/
theorem read_twice_usage_error_counterexample :
    (read_from_memory memEnvOk
        (read_from_memory memEnvOk freshContext [1]).state [2]).error =
      some (PyException.runtimeError "Context already initialized with memory data")
    ∧ isUsageHeifError
        (read_from_memory memEnvOk
          (read_from_memory memEnvOk freshContext [1]).state [2]).error = false
    ∧ (read_from_memory memEnvOk
        (read_from_memory memEnvOk freshContext []).state [2]).error = none := by
  decide

/-- Claim C1, amended: after a first `read_from_memory` call with non-empty
bytes (whatever the native read reported), a second call on the same Container
fails with the layer-local RuntimeError `"Context already initialized with
memory data"`, raised before any native call is made, and the state
established by the first call is unchanged. -/
theorem read_from_memory_second_call_guard (env : MemNativeEnv)
    (st : HeifContextState) (d1 d2 : Bytes) (h0 : st.memory_data = []) (h1 : d1 ≠ []) :
    (read_from_memory env (read_from_memory env st d1).state d2).error =
      some (PyException.runtimeError "Context already initialized with memory data")
    ∧ (read_from_memory env (read_from_memory env st d1).state d2).nativeCalls = []
    ∧ (read_from_memory env (read_from_memory env st d1).state d2).state =
        (read_from_memory env st d1).state
    ∧ (read_from_memory env st d1).state.memory_data = d1 := by
  have hfirst : (read_from_memory env st d1).state = ⟨d1⟩ := by
    unfold read_from_memory
    simp [h0]
    cases check_error (env.readResult d1) with
    | ok u => simp
    | error e => simp
  rw [hfirst]
  unfold read_from_memory
  simp [List.isEmpty_iff, h1]

/-- Concrete instantiation of `read_from_memory_second_call_guard`: first call
stores `[1]`, second call is rejected by the guard with the state intact. -/
theorem read_from_memory_second_call_guard_witness :
    (read_from_memory memEnvOk
        (read_from_memory memEnvOk freshContext [1]).state [2]).error =
      some (PyException.runtimeError "Context already initialized with memory data")
    ∧ (read_from_memory memEnvOk
        (read_from_memory memEnvOk freshContext [1]).state [2]).nativeCalls = []
    ∧ (read_from_memory memEnvOk
        (read_from_memory memEnvOk freshContext [1]).state [2]).state =
        (read_from_memory memEnvOk freshContext [1]).state
    ∧ (read_from_memory memEnvOk freshContext [1]).state.memory_data = [1] :=
  read_from_memory_second_call_guard memEnvOk freshContext [1] [2] rfl (by decide)

/-- Claim C5: on a Container whose `memory_data` is still empty, the input
bytes are assigned to the `memory_data` member first, and the single native
read call is handed a pointer into that member storage, seeing exactly the
stored bytes; after the call `memory_data` equals the input. -/
theorem read_from_memory_stores_before_native (env : MemNativeEnv)
    (st : HeifContextState) (d : Bytes) (h0 : st.memory_data = []) :
    (read_from_memory env st d).state.memory_data = d
    ∧ (read_from_memory env st d).nativeCalls =
        [{ source := BufSource.memberStorage, bytes := d }] := by
  unfold read_from_memory
  simp [h0]
  cases check_error (env.readResult d) with
  | ok u => simp
  | error e => simp

/-- Concrete instantiation of `read_from_memory_stores_before_native` at the
bytes `[7, 8]`. -/
theorem read_from_memory_stores_before_native_witness :
    (read_from_memory memEnvOk freshContext [7, 8]).state.memory_data = [7, 8]
    ∧ (read_from_memory memEnvOk freshContext [7, 8]).nativeCalls =
        [{ source := BufSource.memberStorage, bytes := [7, 8] }] :=
  read_from_memory_stores_before_native memEnvOk freshContext [7, 8] rfl

/-- Claim C10: when the first `read_from_memory` call stored the empty byte
string, the guard (which tests `memory_data` for non-emptiness, not whether a
call was ever made) does not arm: a second call is accepted, its bytes are
stored and forwarded to the native layer, and it succeeds whenever the native
read reports `Ok`. -/
theorem read_from_memory_empty_first_call_hole (env : MemNativeEnv)
    (st : HeifContextState) (d2 : Bytes) (h0 : st.memory_data = []) :
    (read_from_memory env (read_from_memory env st []).state d2).nativeCalls =
      [{ source := BufSource.memberStorage, bytes := d2 }]
    ∧ (read_from_memory env (read_from_memory env st []).state d2).state.memory_data = d2
    ∧ ((env.readResult d2).code = HeifErrorCode.Ok →
        (read_from_memory env (read_from_memory env st []).state d2).error = none) := by
  have hfirst : (read_from_memory env st []).state = ⟨[]⟩ := by
    unfold read_from_memory
    simp [h0]
    cases check_error (env.readResult []) with
    | ok u => simp
    | error e => simp
  rw [hfirst]
  unfold read_from_memory
  simp
  refine ⟨?_, ?_, ?_⟩
  · cases check_error (env.readResult d2) with
    | ok u => simp
    | error e => simp
  · cases check_error (env.readResult d2) with
    | ok u => simp
    | error e => simp
  · intro hok
    have hce : check_error (env.readResult d2) = Except.ok () := by
      simp [check_error, hok]
    simp [hce]

/-- Concrete instantiation of `read_from_memory_empty_first_call_hole`: empty
first read, then a second read of `[9]` is forwarded and succeeds. -/
theorem read_from_memory_empty_first_call_hole_witness :
    (read_from_memory memEnvOk (read_from_memory memEnvOk freshContext []).state [9]).nativeCalls =
      [{ source := BufSource.memberStorage, bytes := [9] }]
    ∧ (read_from_memory memEnvOk
        (read_from_memory memEnvOk freshContext []).state [9]).state.memory_data = [9]
    ∧ (read_from_memory memEnvOk
        (read_from_memory memEnvOk freshContext []).state [9]).error = none :=
  have h := read_from_memory_empty_first_call_hole memEnvOk freshContext [9] rfl
  ⟨h.1, h.2.1, h.2.2 rfl⟩

/-- The `heif_chroma` enumeration (native values relevant to the buffer
layout computation in src/src/image.cpp). -/
inductive HeifChroma
  | undefined
  | monochrome
  | c420
  | c422
  | c444
  | interleaved_RGB
  | interleaved_RGBA
  | interleaved_RRGGBB_BE
  | interleaved_RRGGBB_LE
  | interleaved_RRGGBBAA_BE
  | interleaved_RRGGBBAA_LE
  deriving DecidableEq, Repr

/-- The element format code of a buffer descriptor: `py::format_descriptor`
for `uint8_t` or `uint16_t`. -/
inductive BufFormat
  | uint8
  | uint16
  deriving DecidableEq, Repr

/-- A `py::buffer_info` descriptor as constructed by
`HeifImage::get_buffer_info` (the data pointer is elided; shape and strides
are byte counts). -/
structure BufferInfo where
  itemsize : Nat
  format : BufFormat
  ndim : Nat
  shape : List Nat
  strides : List Nat
  readonly : Bool
  deriving DecidableEq, Repr

/-- What the native layer reports for one `(image, channel)` pair when
`get_buffer_info` queries it: whether `heif_image_get_plane` returned a
non-null pointer, the row stride it reported, and the channel's width, height,
bits-per-pixel-range and the image's chroma format. -/
structure PlaneQuery where
  dataValid : Bool
  stride : Nat
  width : Nat
  height : Nat
  bpp_range : Nat
  chroma : HeifChroma
  deriving DecidableEq, Repr

/-- `HeifImage::get_buffer_info` translated from src/src/image.cpp: fail with
`std::runtime_error("Failed to get image plane data")` on a null plane
pointer; otherwise compute the channel count from the chroma format, the
element size from the bits-per-pixel-range, and build a 3-D descriptor for
interleaved formats or a 2-D descriptor for single-channel planes, with the
native row stride used as the first stride. -/
def get_buffer_info (q : PlaneQuery) (writeable : Bool) :
    Except PyException BufferInfo :=
  if q.dataValid = false then
    Except.error (PyException.runtimeError "Failed to get image plane data")
  else
    let num_channels : Nat :=
      if q.chroma = HeifChroma.interleaved_RGB then 3
      else if q.chroma = HeifChroma.interleaved_RGBA
          ∨ q.chroma = HeifChroma.interleaved_RRGGBB_BE
          ∨ q.chroma = HeifChroma.interleaved_RRGGBB_LE
          ∨ q.chroma = HeifChroma.interleaved_RRGGBBAA_BE
          ∨ q.chroma = HeifChroma.interleaved_RRGGBBAA_LE then 4
      else 1
    let bytes_per_channel : Nat := (q.bpp_range + 7) / 8
    let format : BufFormat :=
      if bytes_per_channel = 1 then BufFormat.uint8 else BufFormat.uint16
    if num_channels > 1 then
      Except.ok
        { itemsize := bytes_per_channel
          format := format
          ndim := 3
          shape := [q.height, q.width, num_channels]
          strides := [q.stride, num_channels * bytes_per_channel, bytes_per_channel]
          readonly := !writeable }
    else
      Except.ok
        { itemsize := bytes_per_channel
          format := format
          ndim := 2
          shape := [q.height, q.width]
          strides := [q.stride, bytes_per_channel]
          readonly := !writeable }

/-- A `HeifPlane` as created by `HeifImage.get_plane` in the module
definition: it remembers the channel's native query data and the `writeable`
flag and defers to `get_buffer_info`. -/
structure HeifPlane where
  q : PlaneQuery
  writeable : Bool
  deriving DecidableEq, Repr

/-- `HeifPlane::get_buffer_info`: defer to the image's `get_buffer_info` with
the stored channel and writeable flag. -/
def HeifPlane.buffer_info (p : HeifPlane) : Except PyException BufferInfo :=
  get_buffer_info p.q p.writeable

/-- Modelled from the spec's words (claim C2): the channel multiplicity table
`InterleavedRGB ↦ 3`, the four-channel interleaved formats `↦ 4`, every other
chroma `↦ 1`. -/
def specMultiplicity : HeifChroma → Nat
  | HeifChroma.interleaved_RGB => 3
  | HeifChroma.interleaved_RGBA => 4
  | HeifChroma.interleaved_RRGGBB_BE => 4
  | HeifChroma.interleaved_RRGGBB_LE => 4
  | HeifChroma.interleaved_RRGGBBAA_BE => 4
  | HeifChroma.interleaved_RRGGBBAA_LE => 4
  | _ => 1

/-- Modelled from the spec's words (claim C2): the expected buffer descriptor.
Element bytes are the bits-per-pixel-range rounded up to whole bytes (format
`uint8` for one byte, `uint16` otherwise); multiplicity 1 gives a 2-D
`(height, width)` descriptor with strides `(rowStride, elementBytes)`;
multiplicity above 1 gives a 3-D `(height, width, channels)` descriptor with
strides `(rowStride, channels * elementBytes, elementBytes)`; the row stride
is exactly the native one; the read-only flag is the negation of
`writeable`. -/
def bufferInfoSpec (q : PlaneQuery) (writeable : Bool) : BufferInfo :=
  let channels := specMultiplicity q.chroma
  let elementBytes := (q.bpp_range + 7) / 8
  let fmt := if elementBytes = 1 then BufFormat.uint8 else BufFormat.uint16
  if channels = 1 then
    { itemsize := elementBytes
      format := fmt
      ndim := 2
      shape := [q.height, q.width]
      strides := [q.stride, elementBytes]
      readonly := !writeable }
  else
    { itemsize := elementBytes
      format := fmt
      ndim := 3
      shape := [q.height, q.width, channels]
      strides := [q.stride, channels * elementBytes, elementBytes]
      readonly := !writeable }

/-- Claim C2: whenever the native plane pointer is valid, the descriptor
produced by `get_plane` / `get_buffer_info` is exactly the one the
specification describes: multiplicity 3 for `InterleavedRGB`, 4 for the other
interleaved formats, 1 otherwise; element size `ceil(bpp / 8)` with format
`uint8` for one byte and `uint16` otherwise; 2-D `(height, width)` with
strides `(rowStride, elementBytes)` at multiplicity 1 and 3-D
`(height, width, channels)` with strides
`(rowStride, channels * elementBytes, elementBytes)` above 1, the row stride
taken verbatim from the native layer; and the read-only flag is the negation
of `writeable`. -/
theorem get_buffer_info_matches_spec (q : PlaneQuery) (writeable : Bool)
    (hv : q.dataValid = true) :
    HeifPlane.buffer_info ⟨q, writeable⟩ = Except.ok (bufferInfoSpec q writeable) := by
  unfold HeifPlane.buffer_info get_buffer_info bufferInfoSpec specMultiplicity
  cases q.chroma <;> simp [hv]

/-- Concrete instantiation of `get_buffer_info_matches_spec`: a 10-bit
interleaved RGB plane read-only view. -/
theorem get_buffer_info_matches_spec_witness :
    HeifPlane.buffer_info
        ⟨{ dataValid := true, stride := 100, width := 16, height := 9,
           bpp_range := 10, chroma := HeifChroma.interleaved_RGB }, false⟩ =
      Except.ok (bufferInfoSpec
        { dataValid := true, stride := 100, width := 16, height := 9,
          bpp_range := 10, chroma := HeifChroma.interleaved_RGB } false) :=
  get_buffer_info_matches_spec
    { dataValid := true, stride := 100, width := 16, height := 9,
      bpp_range := 10, chroma := HeifChroma.interleaved_RGB } false rfl

/-- Native oracle for `HeifContext::get_list_of_top_level_image_IDs`: the
count reported by `heif_context_get_number_of_top_level_images`, the buffer
contents after `heif_context_get_list_of_top_level_image_IDs` wrote into the
count-sized vector (value at each index), and the `int` that fill call
returned. -/
structure TopLevelEnv where
  count : Nat
  fillContents : Nat → Nat
  fillRet : Int

/-- Native oracle for the `HeifImageHandle` metadata surface: block count and
fill for `get_list_of_metadata_block_IDs` (per type filter), the type string
`heif_image_handle_get_metadata_type` returns (`none` models a null
`const char *` for an unknown id), the size query, the bytes the metadata fill
writes, and the error record the metadata fill returns. -/
structure HandleEnv where
  numBlocks : String → Nat
  fillBlockContents : String → Nat → Nat
  fillBlocksRet : String → Int
  metadataType : Nat → Option String
  metadataSize : Nat → Nat
  metadataContents : Nat → Nat → Nat
  metadataErr : Nat → HeifErrorRec

/-- Is an `Except` result a success? -/
def exceptIsOk {α : Type} : Except PyException α → Bool
  | Except.ok _ => true
  | Except.error _ => false

/-- `HeifContext::get_list_of_top_level_image_IDs` translated from
src/src/context.cpp: query the count, allocate a count-sized vector, let the
native fill write into it, and return the vector.  The `int` the fill call
returns (`env.fillRet`) is discarded, exactly as in the source, and no error
translation is performed. -/
def get_list_of_top_level_image_IDs (env : TopLevelEnv) :
    Except PyException (List Nat) :=
  let count := env.count
  let ids := (List.range count).map env.fillContents
  Except.ok ids

/-- `HeifImageHandle::get_list_of_metadata_block_IDs` translated from
src/src/image.cpp: count query, count-sized vector, native fill, return.  As
in the source, the fill call's `int` return (`env.fillBlocksRet`) is discarded
and no error translation is performed. -/
def get_list_of_metadata_block_IDs (env : HandleEnv) (type_filter : String) :
    Except PyException (List Nat) :=
  let count := env.numBlocks type_filter
  let ids := (List.range count).map (env.fillBlockContents type_filter)
  Except.ok ids

/-- `HeifImageHandle::get_metadata_block_type` translated from
src/src/image.cpp: return the native type query's result directly — there is
no `check_error` and no failure channel; a null native return (`none`) is
passed straight to the host string construction. -/
def get_metadata_block_type (env : HandleEnv) (itemId : Nat) : Option String :=
  env.metadataType itemId

/-- `HeifImageHandle::get_metadata_block` translated from src/src/image.cpp:
size the buffer from the size query, let the native fill write into it, route
the fill call's error record through `check_error`, and return the buffer on
success. -/
def get_metadata_block (env : HandleEnv) (itemId : Nat) : Except PyException Bytes :=
  let size := env.metadataSize itemId
  let data := (List.range size).map (env.metadataContents itemId)
  match check_error (env.metadataErr itemId) with
  | Except.ok _ => Except.ok data
  | Except.error e => Except.error e

/-- A top-level enumeration oracle whose fill call signals failure (returns
`-1` and writes only zeros) after a nonzero count of 2. -/
def failingTopLevelEnv : TopLevelEnv :=
  { count := 2, fillContents := fun _ => 0, fillRet := -1 }

/-- A handle oracle with two metadata blocks whose ID fill call signals
failure (`-1`), and whose per-id metadata queries report an unknown id:
null type string, zero size, and an `Invalid_input` error from the fill. -/
def failingHandleEnv : HandleEnv :=
  { numBlocks := fun _ => 2
    fillBlockContents := fun _ _ => 0
    fillBlocksRet := fun _ => -1
    metadataType := fun _ => none
    metadataSize := fun _ => 0
    metadataContents := fun _ _ => 0
    metadataErr := fun _ => ⟨HeifErrorCode.InvalidInput, 0, "No such metadata"⟩ }

/-- Claim C4 as stated is false at a concrete input: with a nonzero count of 2
and a fill call signalling failure (return value `-1`), both
`get_list_of_top_level_image_IDs` and `get_list_of_metadata_block_IDs` still
return a successful count-sized result — the fill call's return value is
ignored and no structured failure is propagated. -/
theorem id_enumeration_fill_unchecked_counterexample :
    get_list_of_top_level_image_IDs failingTopLevelEnv = Except.ok [0, 0]
    ∧ get_list_of_metadata_block_IDs failingHandleEnv "Exif" = Except.ok [0, 0] := by
  constructor
  · rfl
  · rfl

/-- Claim C4, amended: only `get_metadata_block` checks its fill call's result
(routing the native error record through `check_error` and propagating non-Ok
results as structured failures); `get_list_of_top_level_image_IDs` and
`get_list_of_metadata_block_IDs` discard the fill call's return value and
never fail; in all three a count (or size) of zero yields a valid empty
result. -/
theorem two_phase_fill_check_amended (envT : TopLevelEnv) (envH : HandleEnv)
    (tf : String) (itemId : Nat) :
    (envT.count = 0 → get_list_of_top_level_image_IDs envT = Except.ok [])
    ∧ (envH.numBlocks tf = 0 → get_list_of_metadata_block_IDs envH tf = Except.ok [])
    ∧ exceptIsOk (get_list_of_top_level_image_IDs envT) = true
    ∧ exceptIsOk (get_list_of_metadata_block_IDs envH tf) = true
    ∧ ((envH.metadataErr itemId).code ≠ HeifErrorCode.Ok →
        get_metadata_block envH itemId =
          Except.error (PyException.heifError
            ⟨(envH.metadataErr itemId).code, (envH.metadataErr itemId).subcode,
              (envH.metadataErr itemId).message⟩)) := by
  refine ⟨?_, ?_, rfl, rfl, ?_⟩
  · intro h
    simp [get_list_of_top_level_image_IDs, h]
  · intro h
    simp [get_list_of_metadata_block_IDs, h]
  · intro h
    simp [get_metadata_block, check_error, h]

/-- Concrete instantiation of `two_phase_fill_check_amended`: an oracle with
zero top-level images, a filter matching zero blocks, and a metadata fill that
reports `Invalid_input`. -/
theorem two_phase_fill_check_amended_witness :
    get_list_of_top_level_image_IDs { count := 0, fillContents := fun _ => 0, fillRet := 0 } =
      Except.ok []
    ∧ get_list_of_metadata_block_IDs
        { failingHandleEnv with numBlocks := fun _ => 0 } "mime" = Except.ok []
    ∧ get_metadata_block { failingHandleEnv with numBlocks := fun _ => 0 } 5 =
        Except.error (PyException.heifError ⟨HeifErrorCode.InvalidInput, 0, "No such metadata"⟩) := by
  have h := two_phase_fill_check_amended
    { count := 0, fillContents := fun _ => 0, fillRet := 0 }
    { failingHandleEnv with numBlocks := fun _ => 0 } "mime" 5
  exact ⟨h.1 rfl, h.2.1 rfl, h.2.2.2.2 (by decide)⟩

/-- Claim C8 as stated is false at a concrete input: for an id unknown to the
handle (the native type query returns the null marker and the metadata fill
reports `Invalid_input`), `get_metadata_block` does fail with the structured
`InvalidInput` failure, but `get_metadata_block_type` raises no structured
failure at all — it returns the native null result unchecked (in the C++ that
null `const char *` goes straight into the `std::string` constructor). -/
theorem metadata_block_type_unchecked_counterexample :
    get_metadata_block_type failingHandleEnv 5 = none
    ∧ get_metadata_block failingHandleEnv 5 =
        Except.error (PyException.heifError
          ⟨HeifErrorCode.InvalidInput, 0, "No such metadata"⟩) := by
  constructor
  · rfl
  · rfl

/-- Claim C8, amended: `get_metadata_block` sizes its output from the size
query, then fills, checks the fill call's error record and fails with exactly
the structured failure the native layer reports (`InvalidInput` for an unknown
id); but `get_metadata_block_type` performs no error check — it forwards the
native type query's result verbatim, so an unknown id yields the unchecked
null native result rather than a structured `InvalidInput` failure. -/
theorem get_metadata_block_two_phase (envH : HandleEnv) (itemId : Nat) :
    ((envH.metadataErr itemId).code ≠ HeifErrorCode.Ok →
      get_metadata_block envH itemId =
        Except.error (PyException.heifError
          ⟨(envH.metadataErr itemId).code, (envH.metadataErr itemId).subcode,
            (envH.metadataErr itemId).message⟩))
    ∧ ((envH.metadataErr itemId).code = HeifErrorCode.Ok →
      get_metadata_block envH itemId =
        Except.ok ((List.range (envH.metadataSize itemId)).map (envH.metadataContents itemId)))
    ∧ get_metadata_block_type envH itemId = envH.metadataType itemId := by
  refine ⟨?_, ?_, rfl⟩
  · intro h
    simp [get_metadata_block, check_error, h]
  · intro h
    simp [get_metadata_block, check_error, h]

/-- A handle oracle with one known metadata block of type `"Exif"`, two bytes
long, whose fill reports `Ok`. -/
def knownIdEnv : HandleEnv :=
  { numBlocks := fun _ => 1
    fillBlockContents := fun _ _ => 42
    fillBlocksRet := fun _ => 1
    metadataType := fun _ => some "Exif"
    metadataSize := fun _ => 2
    metadataContents := fun _ i => i + 1
    metadataErr := fun _ => ⟨HeifErrorCode.Ok, 0, "Success"⟩ }

/-- Concrete instantiation of `get_metadata_block_two_phase` at an unknown id
(failing fill) and at a known id (succeeding fill). -/
theorem get_metadata_block_two_phase_witness :
    get_metadata_block failingHandleEnv 9 =
      Except.error (PyException.heifError
        ⟨HeifErrorCode.InvalidInput, 0, "No such metadata"⟩)
    ∧ get_metadata_block knownIdEnv 3 = Except.ok [1, 2]
    ∧ get_metadata_block_type failingHandleEnv 9 = none := by
  refine ⟨(get_metadata_block_two_phase failingHandleEnv 9).1 (by decide), ?_,
    (get_metadata_block_two_phase failingHandleEnv 9).2.2⟩
  have h := (get_metadata_block_two_phase knownIdEnv 3).2.1 rfl
  simpa using h

/-- The `heif_compression_format` enumeration as exported by the module
definition. -/
inductive HeifCompressionFormat
  | undefined
  | HEVC
  | AVC
  | JPEG
  | AV1
  | JPEG2000
  deriving DecidableEq, Repr

/-- Native oracle for the encoder-descriptor surface.  Native descriptors are
identified by their pointer value (a `Nat`).  `encCount` is what
`heif_get_encoder_descriptors` returns for a (format filter, name filter) pair
when called with a null output array; `encPtrs` gives the pointer the fill
call writes at each index; `descIdName` / `descName` / `descFormat` are the
per-pointer accessor queries, reflecting the native state at the moment they
are asked. -/
structure EncEnv where
  encCount : HeifCompressionFormat → String → Nat
  encPtrs : HeifCompressionFormat → String → Nat → Nat
  descIdName : Nat → String
  descName : Nat → String
  descFormat : Nat → HeifCompressionFormat

/-- A `HeifEncoderDescriptor` as defined in the encoder header: it holds a
single field, the native `const heif_encoder_descriptor *` it was constructed
from. -/
structure HeifEncoderDescriptor where
  descriptor : Nat
  deriving DecidableEq, Repr

/-- `HeifEncoderDescriptor::id_name`: query the native layer through the
retained pointer at access time. -/
def HeifEncoderDescriptor.id_name (env : EncEnv) (d : HeifEncoderDescriptor) : String :=
  env.descIdName d.descriptor

/-- `HeifEncoderDescriptor::name`: query the native layer through the retained
pointer at access time. -/
def HeifEncoderDescriptor.display_name (env : EncEnv) (d : HeifEncoderDescriptor) : String :=
  env.descName d.descriptor

/-- `HeifEncoderDescriptor::compression_format`: query the native layer
through the retained pointer at access time. -/
def HeifEncoderDescriptor.compression_format (env : EncEnv) (d : HeifEncoderDescriptor) :
    HeifCompressionFormat :=
  env.descFormat d.descriptor

/-- `get_encoder_descriptors` translated from the encoder translation unit:
count query with a null array, then — when the count is positive — allocate a
temporary pointer array, fill it, wrap each pointer in a
`HeifEncoderDescriptor`, free the temporary array, and return the wrappers. -/
def get_encoder_descriptors (env : EncEnv) (format_filter : HeifCompressionFormat)
    (name_filter : String) : List HeifEncoderDescriptor :=
  let count := env.encCount format_filter name_filter
  if count > 0 then
    (List.range count).map (fun i => ⟨env.encPtrs format_filter name_filter i⟩)
  else
    []

/-- An encoder-descriptor oracle with one descriptor at pointer 7 named
`"x265"`. -/
def encEnvBefore : EncEnv :=
  { encCount := fun _ _ => 1
    encPtrs := fun _ _ _ => 7
    descIdName := fun _ => "x265"
    descName := fun _ => "x265 HEVC encoder"
    descFormat := fun _ => HeifCompressionFormat.HEVC }

/-- The same oracle after the native state behind pointer 7 has changed: the
enumeration data (count and pointers) is identical, only the per-pointer
queries answer differently. -/
def encEnvAfter : EncEnv :=
  { encEnvBefore with descIdName := fun _ => "stale" }

/-- Claim C6 as stated is false at a concrete input: the record returned by
`get_encoder_descriptors` is not a copied-out value record — it retains the
native pointer (the returned wrapper is literally `⟨7⟩`), and its `id_name`
field is read through that pointer at access time, so two native states that
agree on the enumeration call but differ afterwards give the same returned
record yet different field values. -/
theorem encoder_descriptor_copy_out_counterexample :
    get_encoder_descriptors encEnvBefore HeifCompressionFormat.undefined "" =
      get_encoder_descriptors encEnvAfter HeifCompressionFormat.undefined ""
    ∧ get_encoder_descriptors encEnvBefore HeifCompressionFormat.undefined "" =
        [{ descriptor := 7 }]
    ∧ HeifEncoderDescriptor.id_name encEnvBefore { descriptor := 7 } = "x265"
    ∧ HeifEncoderDescriptor.id_name encEnvAfter { descriptor := 7 } = "stale" := by
  refine ⟨rfl, rfl, rfl, rfl⟩

/-- Claim C6, amended: each descriptor returned by `get_encoder_descriptors`
retains the native descriptor pointer written by the fill call (only the
temporary pointer array is freed before returning), and its id, display name
and compression format are obtained by querying the native layer through that
retained pointer at access time, against whatever the native state then is. -/
theorem get_encoder_descriptors_retains_pointers (env env2 : EncEnv)
    (ff : HeifCompressionFormat) (nf : String) (i : Nat)
    (h : i < env.encCount ff nf) :
    (get_encoder_descriptors env ff nf).length = env.encCount ff nf
    ∧ (get_encoder_descriptors env ff nf)[i]? = some ⟨env.encPtrs ff nf i⟩
    ∧ HeifEncoderDescriptor.id_name env2 ⟨env.encPtrs ff nf i⟩ =
        env2.descIdName (env.encPtrs ff nf i)
    ∧ HeifEncoderDescriptor.display_name env2 ⟨env.encPtrs ff nf i⟩ =
        env2.descName (env.encPtrs ff nf i)
    ∧ HeifEncoderDescriptor.compression_format env2 ⟨env.encPtrs ff nf i⟩ =
        env2.descFormat (env.encPtrs ff nf i) := by
  have hpos : env.encCount ff nf > 0 := Nat.lt_of_le_of_lt (Nat.zero_le i) h
  unfold get_encoder_descriptors
  simp [hpos, h, List.getElem?_map, List.getElem?_range, HeifEncoderDescriptor.id_name,
    HeifEncoderDescriptor.display_name, HeifEncoderDescriptor.compression_format]

/-- Concrete instantiation of `get_encoder_descriptors_retains_pointers` at
the one-descriptor oracle and the post-enumeration native state. -/
theorem get_encoder_descriptors_retains_pointers_witness :
    (get_encoder_descriptors encEnvBefore HeifCompressionFormat.undefined "").length = 1
    ∧ (get_encoder_descriptors encEnvBefore HeifCompressionFormat.undefined "")[0]? =
        some ⟨7⟩
    ∧ HeifEncoderDescriptor.id_name encEnvAfter ⟨7⟩ = encEnvAfter.descIdName 7
    ∧ HeifEncoderDescriptor.display_name encEnvAfter ⟨7⟩ = encEnvAfter.descName 7
    ∧ HeifEncoderDescriptor.compression_format encEnvAfter ⟨7⟩ = encEnvAfter.descFormat 7 :=
  get_encoder_descriptors_retains_pointers encEnvBefore encEnvAfter
    HeifCompressionFormat.undefined "" 0 (by decide)

/-- The mutable configuration of a native `heif_encoder`: its named parameter
store.  The freshest binding of a name is the one in effect (`List.lookup`
finds the first match). -/
structure EncoderState where
  params : List (String × String)
  deriving DecidableEq, Repr

/-- `HeifEncoder::set_parameter`: delegate to the native
`heif_encoder_set_parameter`, which (re)binds the named parameter. -/
def set_parameter (st : EncoderState) (name value : String) : EncoderState :=
  { st with params := (name, value) :: st.params }

/-- The observable steps of one `encode_image` call. -/
inductive EncodeEvent
  | setParam (name value : String)
  | nativeEncode
  deriving DecidableEq, Repr

/-- `HeifEncoder::encode_image` translated from the encoder translation unit:
if the `preset` argument is non-empty, call `set_parameter("preset", preset)`
first, then invoke the native `heif_context_encode_image`.  Returns the
encoder state after the call and the ordered events. -/
def encode_image (st : EncoderState) (preset : String) :
    EncoderState × List EncodeEvent :=
  if preset ≠ "" then
    let st' := set_parameter st "preset" preset
    (st', [EncodeEvent.setParam "preset" preset, EncodeEvent.nativeEncode])
  else
    (st, [EncodeEvent.nativeEncode])

/-- Claim C7: for a non-empty preset, `encode_image` performs
`set_parameter("preset", preset)` before the native encode call,
unconditionally — the parameter in effect afterwards is the argument,
whatever was bound before; for an empty preset no parameter call is issued and
the encoder state is untouched. -/
theorem encode_image_preset_precedence (st : EncoderState) (preset : String) :
    (preset ≠ "" →
      (encode_image st preset).2 =
        [EncodeEvent.setParam "preset" preset, EncodeEvent.nativeEncode]
      ∧ List.lookup "preset" (encode_image st preset).1.params = some preset)
    ∧ (preset = "" →
      (encode_image st preset).2 = [EncodeEvent.nativeEncode]
      ∧ (encode_image st preset).1 = st) := by
  constructor
  · intro h
    constructor
    · simp [encode_image, h]
    · simp [encode_image, set_parameter, h, List.lookup]
  · intro h
    constructor
    · simp [encode_image, h]
    · simp [encode_image, h]

/-- Concrete instantiation of `encode_image_preset_precedence`: a prior
explicit `set_parameter("preset", "slow")` is overwritten by the non-empty
argument `"fast"`, and an empty argument leaves it untouched. -/
theorem encode_image_preset_precedence_witness :
    ((encode_image ⟨[("preset", "slow")]⟩ "fast").2 =
        [EncodeEvent.setParam "preset" "fast", EncodeEvent.nativeEncode]
      ∧ List.lookup "preset" (encode_image ⟨[("preset", "slow")]⟩ "fast").1.params =
          some "fast")
    ∧ ((encode_image ⟨[("preset", "slow")]⟩ "").2 = [EncodeEvent.nativeEncode]
      ∧ (encode_image ⟨[("preset", "slow")]⟩ "").1 = ⟨[("preset", "slow")]⟩) :=
  ⟨(encode_image_preset_precedence ⟨[("preset", "slow")]⟩ "fast").1 (by decide),
   (encode_image_preset_precedence ⟨[("preset", "slow")]⟩ "").2 rfl⟩

/-- One step of a wrapped operation, as seen by the host's global execution
lock (the GIL): releasing the lock (`py::gil_scoped_release` construction or
`py::call_guard` entry), reacquiring it (scope exit), invoking a native
libheif entry point, or touching / constructing a host-visible object. -/
inductive GilEvent
  | gilRelease
  | gilAcquire
  | native (name : String)
  | host (name : String)
  deriving DecidableEq, Repr

/-- The GIL discipline of claim C9, checked along a trace: starting with the
lock held, every native call must happen while the lock is released, every
host-object touch while it is held, releases and acquisitions must alternate
correctly, and the lock is held again at the end. -/
def gilOk : Bool → List GilEvent → Bool
  | held, [] => held
  | held, GilEvent.gilRelease :: rest => held && gilOk false rest
  | held, GilEvent.gilAcquire :: rest => !held && gilOk true rest
  | held, GilEvent.native _ :: rest => !held && gilOk held rest
  | held, GilEvent.host _ :: rest => held && gilOk held rest

/-- `HeifContext::read_from_file` as a GIL trace: a `gil_scoped_release`
guards the native file read; its scope ends before control returns to the
host. -/
def read_from_file_trace : List GilEvent :=
  [GilEvent.gilRelease, GilEvent.native "heif_context_read_from_file",
   GilEvent.gilAcquire]

/-- `HeifContext::read_from_memory` as a GIL trace: the host byte object is
converted and stored into `memory_data` while the lock is held, then a
`gil_scoped_release` guards the native non-copying read. -/
def read_from_memory_trace : List GilEvent :=
  [GilEvent.host "convert py bytes and store into memory_data",
   GilEvent.gilRelease,
   GilEvent.native "heif_context_read_from_memory_without_copy",
   GilEvent.gilAcquire]

/-- `HeifContext::write_to_file` as a GIL trace. -/
def write_to_file_trace : List GilEvent :=
  [GilEvent.gilRelease, GilEvent.native "heif_context_write_to_file",
   GilEvent.gilAcquire]

/-- `HeifContext::write_to_bytes` as a GIL trace: the release scope is a block
around the native write only; the host bytes result is constructed after the
block ends. -/
def write_to_bytes_trace : List GilEvent :=
  [GilEvent.gilRelease, GilEvent.native "heif_context_write",
   GilEvent.gilAcquire, GilEvent.host "construct py bytes result"]

/-- `HeifImageHandle::decode` as a GIL trace: the binding wraps the whole
member function in `py::call_guard<py::gil_scoped_release>`, so the lock is
released on entry and reacquired when the guard is destroyed, before the
result is converted into a host object. -/
def decode_trace : List GilEvent :=
  [GilEvent.gilRelease, GilEvent.native "heif_decode_image",
   GilEvent.gilAcquire, GilEvent.host "convert result handle to host object"]

/-- `HeifEncoder::encode_image` as a GIL trace: under the binding's
`py::call_guard<py::gil_scoped_release>`, the optional preset
`heif_encoder_set_parameter` call and `heif_context_encode_image` both run
with the lock released; the guard is destroyed before the result is converted
into a host object. -/
def encode_image_trace (preset : String) : List GilEvent :=
  [GilEvent.gilRelease]
    ++ (if preset ≠ "" then [GilEvent.native "heif_encoder_set_parameter"] else [])
    ++ [GilEvent.native "heif_context_encode_image", GilEvent.gilAcquire,
        GilEvent.host "convert result handle to host object"]

/-- Claim C9: every wrapped blocking native call — file read, memory read,
file write, bytes write, decode, and encode (with any preset) — runs with the
host's global execution lock released, and the lock is reacquired before any
host-visible object is touched or any result is constructed. -/
theorem gil_discipline_all_blocking_calls (preset : String) :
    gilOk true read_from_file_trace = true
    ∧ gilOk true read_from_memory_trace = true
    ∧ gilOk true write_to_file_trace = true
    ∧ gilOk true write_to_bytes_trace = true
    ∧ gilOk true decode_trace = true
    ∧ gilOk true (encode_image_trace preset) = true := by
  refine ⟨rfl, rfl, rfl, rfl, rfl, ?_⟩
  unfold encode_image_trace
  by_cases h : preset = ""
  · simp [h, gilOk]
  · simp [h, gilOk]

end Pylibheif
